import Mathlib

/-!
Verification of the contribution-statistics aggregation logic of the
Git Wrapped web application.

The definitions below are a shallow embedding of the aggregation code in
`src/app/api/stats/route.ts`, `src/app/leaderboards/page.tsx` and the
Leaderboard component.  JavaScript numbers that only ever hold non-negative
integers are embedded as `Nat`; the one floating-point computation
(`Math.round` of a quotient) is embedded over `ℚ` with explicit half-up
rounding; the stable `Array.prototype.sort` is embedded as an insertion sort,
whose output coincides with every stable sort for a total comparator.
-/

namespace GitWrapped

/-- A calendar date `YYYY-MM-DD`, the `date` field of a contribution day.
For well-formed ISO dates, the comparison
`new Date(day.date) >= new Date("2024-01-01")` performed by the route is
chronological comparison, i.e. lexicographic comparison of the
(year, month, day) triple. -/
structure CalDate where
  year : Nat
  month : Nat
  day : Nat
deriving DecidableEq, Repr

/-- Chronological order on dates: `a.le b` holds when date `a` is on or
before date `b`. -/
def CalDate.le (a b : CalDate) : Bool :=
  if a.year ≠ b.year then a.year < b.year
  else if a.month ≠ b.month then a.month < b.month
  else a.day ≤ b.day

/-- One day of the GitHub contribution calendar, the `ContributionDay`
interface of `route.ts`: a contribution count, the day's date and its
weekday (0 = Sunday … 6 = Saturday). -/
structure ContributionDay where
  contributionCount : Nat
  date : CalDate
  weekday : Nat
deriving DecidableEq, Repr

/-- A repository node as consumed by `route.ts`: a star count and an
optional primary language name (`repo.primaryLanguage?.name`). -/
structure Repo where
  stargazerCount : Nat
  primaryLanguage : Option String
deriving DecidableEq, Repr

/-- The fixed cutoff date `2024-01-01` hard-coded in `route.ts`. -/
def cutoffDate : CalDate := ⟨2024, 1, 1⟩

/-- The day filter of `route.ts` (lines 213–216, and again lines 293–295 for
the streak leaderboard):
`.filter((day) => new Date(day.date) >= new Date("2024-01-01"))`. -/
def filterFrom2024 (days : List ContributionDay) : List ContributionDay :=
  days.filter (fun day => cutoffDate.le day.date)

/-- One iteration of the streak loop of `route.ts` (lines 269–276) on the
state `(currentStreak, maxStreak)`: a day with `contributionCount > 0`
increments `currentStreak` and updates `maxStreak` with
`Math.max(maxStreak, currentStreak)`; a zero-count day resets
`currentStreak` to 0. -/
def streakStep (s : Nat × Nat) (day : ContributionDay) : Nat × Nat :=
  if day.contributionCount > 0 then (s.1 + 1, max s.2 (s.1 + 1)) else (0, s.2)

/-- The streak computation of `route.ts` (lines 266–276): run the streak
loop over the days in order, starting from `currentStreak = 0`,
`maxStreak = 0`, and return the final `maxStreak`. -/
def computeLongestStreak (days : List ContributionDay) : Nat :=
  (days.foldl streakStep (0, 0)).2

/-- The sequence of values taken by the running streak counter described by
the specification, starting from counter value `cur`: the counter is
incremented on any day with `contributionCount > 0` and reset to 0 on a
zero-count day. -/
def streakCounterValues (days : List ContributionDay) (cur : Nat) : List Nat :=
  match days with
  | [] => []
  | day :: rest =>
    if day.contributionCount > 0 then (cur + 1) :: streakCounterValues rest (cur + 1)
    else 0 :: streakCounterValues rest 0

/-- A contribution day carrying only a count, for the concrete examples of
the specification (date and weekday are irrelevant to the streak loop). -/
def dayOfCount (c : Nat) : ContributionDay := ⟨c, cutoffDate, 0⟩

/-- `getCommitRank` from `route.ts` (lines 54–62): fixed ascending
thresholds on the total contribution count. -/
def getCommitRank (totalCommits : Nat) : String :=
  if totalCommits ≥ 5000 then "Top 0.5%-1%"
  else if totalCommits ≥ 2000 then "Top 1%-3%"
  else if totalCommits ≥ 1000 then "Top 5%-10%"
  else if totalCommits ≥ 500 then "Top 10%-15%"
  else if totalCommits ≥ 200 then "Top 25%-30%"
  else if totalCommits ≥ 50 then "Median 50%"
  else "Bottom 30%"

/-- The position of each commit-rank label in the tier order, from the
default bottom tier (0) up to the best tier (6). -/
def tierIndex (label : String) : Nat :=
  if label = "Top 0.5%-1%" then 6
  else if label = "Top 1%-3%" then 5
  else if label = "Top 5%-10%" then 4
  else if label = "Top 10%-15%" then 3
  else if label = "Top 25%-30%" then 2
  else if label = "Median 50%" then 1
  else 0

/-- The numeric tier selected by the threshold chain of `getCommitRank`. -/
def commitLevel (totalCommits : Nat) : Nat :=
  if totalCommits ≥ 5000 then 6
  else if totalCommits ≥ 2000 then 5
  else if totalCommits ≥ 1000 then 4
  else if totalCommits ≥ 500 then 3
  else if totalCommits ≥ 200 then 2
  else if totalCommits ≥ 50 then 1
  else 0

theorem tierIndex_getCommitRank (n : Nat) : tierIndex (getCommitRank n) = commitLevel n := by
  unfold getCommitRank commitLevel
  split_ifs <;> rfl

theorem commitLevel_monotone {x y : Nat} (h : x ≤ y) : commitLevel x ≤ commitLevel y := by
  unfold commitLevel
  split_ifs <;> omega

theorem streak_foldl_snd_le (days : List ContributionDay) (s : Nat × Nat) :
    s.2 ≤ (days.foldl streakStep s).2 := by
  induction days generalizing s with
  | nil => exact Nat.le_refl s.2
  | cons d rest ih =>
    simp only [List.foldl_cons, streakStep]
    split
    · exact Nat.le_trans (Nat.le_max_left _ _) (ih (s.1 + 1, max s.2 (s.1 + 1)))
    · exact ih (0, s.2)

theorem streak_foldl_eq_max_counter (days : List ContributionDay) (cur mx : Nat) :
    (days.foldl streakStep (cur, mx)).2
      = max mx ((streakCounterValues days cur).foldr max 0) := by
  induction days generalizing cur mx with
  | nil => simp [streakCounterValues]
  | cons d rest ih =>
    by_cases h : d.contributionCount > 0
    · simp only [List.foldl_cons, streakStep, streakCounterValues, if_pos h,
        List.foldr_cons]
      rw [ih]
      omega
    · simp only [List.foldl_cons, streakStep, streakCounterValues, if_neg h,
        List.foldr_cons]
      rw [ih]
      omega

theorem streak_foldl_replicate_one (n : Nat) (cur mx : Nat) (hcm : cur ≤ mx) :
    ((List.replicate n (dayOfCount 1)).foldl streakStep (cur, mx)).2
      = max mx (cur + n) := by
  induction n generalizing cur mx with
  | zero =>
    simp only [List.replicate_zero, List.foldl_nil, Nat.add_zero]
    omega
  | succ k ih =>
    rw [List.replicate_succ, List.foldl_cons]
    show ((List.replicate k (dayOfCount 1)).foldl streakStep
        (if 1 > 0 then (cur + 1, max mx (cur + 1)) else (0, mx))).2 = _
    rw [if_pos (by norm_num)]
    rw [ih (cur + 1) (max mx (cur + 1)) (Nat.le_max_right _ _)]
    omega

/-- Claim C1: the longest-streak computation maintains a running counter,
incremented on any day with `contributionCount > 0` and reset to 0 on a
zero-count day, and returns the maximum counter value seen; it returns 0 on
empty input, and returns 2 on the example
`[{count:3},{count:0},{count:5},{count:2},{count:0}]`. -/
theorem computeLongestStreak_spec :
    (∀ days : List ContributionDay,
        computeLongestStreak days = (streakCounterValues days 0).foldr max 0)
    ∧ computeLongestStreak [] = 0
    ∧ computeLongestStreak
        [dayOfCount 3, dayOfCount 0, dayOfCount 5, dayOfCount 2, dayOfCount 0] = 2 := by
  refine ⟨fun days => ?_, rfl, by decide⟩
  have h := streak_foldl_eq_max_counter days 0 0
  simpa [computeLongestStreak] using h

/-- Claim C9: the longest-streak result never decreases when further days are
appended (in particular when qualifying non-zero-count days are appended);
a sequence of `n` days each with count 1 yields streak `n`, and the empty
sequence yields 0. -/
theorem computeLongestStreak_monotone :
    (∀ l ds : List ContributionDay,
        computeLongestStreak l ≤ computeLongestStreak (l ++ ds))
    ∧ (∀ n : Nat, computeLongestStreak (List.replicate n (dayOfCount 1)) = n)
    ∧ computeLongestStreak [] = 0 := by
  refine ⟨fun l ds => ?_, fun n => ?_, rfl⟩
  · unfold computeLongestStreak
    rw [List.foldl_append]
    exact streak_foldl_snd_le ds (l.foldl streakStep (0, 0))
  · unfold computeLongestStreak
    rw [streak_foldl_replicate_one n 0 0 (Nat.le_refl 0)]
    omega

/-- Claim C4: `getCommitRank` is a pure, total, non-decreasing step function
of the total-commit count: for `x ≤ y` the tier for `x` is never better than
the tier for `y`; counts at least 5000 map to the top tier and counts below
the lowest threshold (50) map to the default bottom tier. -/
theorem getCommitRank_monotone :
    (∀ x y : Nat, x ≤ y → tierIndex (getCommitRank x) ≤ tierIndex (getCommitRank y))
    ∧ (∀ n : Nat, 5000 ≤ n → getCommitRank n = "Top 0.5%-1%")
    ∧ (∀ n : Nat, n < 50 → getCommitRank n = "Bottom 30%") := by
  refine ⟨fun x y hxy => ?_, fun n hn => ?_, fun n hn => ?_⟩
  · rw [tierIndex_getCommitRank, tierIndex_getCommitRank]
    exact commitLevel_monotone hxy
  · unfold getCommitRank
    rw [if_pos hn]
  · unfold getCommitRank
    split_ifs <;> first | rfl | omega

/-- Witness for claim C4 at concrete inputs 49 and 5000. -/
theorem getCommitRank_monotone_witness :
    tierIndex (getCommitRank 49) ≤ tierIndex (getCommitRank 5000)
    ∧ getCommitRank 5000 = "Top 0.5%-1%"
    ∧ getCommitRank 49 = "Bottom 30%" :=
  ⟨getCommitRank_monotone.1 49 5000 (by norm_num),
   getCommitRank_monotone.2.1 5000 (by norm_num),
   getCommitRank_monotone.2.2 49 (by norm_num)⟩

/-- A member of the queried user's network as assembled by `route.ts`
(the user plus deduplicated followers/following): login, avatar URL, the
calendar's `totalContributions`, the flattened contribution days, and the
star counts of the repository nodes. -/
structure NetworkUser where
  login : String
  avatarUrl : String
  totalContributions : Nat
  days : List ContributionDay
  repoStars : List Nat
deriving DecidableEq, Repr

/-- The `LeaderboardEntry` interface of `route.ts`. -/
structure LeaderboardEntry where
  username : String
  value : Nat
  avatarUrl : String
  rank : Nat
deriving DecidableEq, Repr

/-- The order realised by the JavaScript comparator
`(a, b) => b.value - a.value`: entry `a` may stay before entry `b`
exactly when `b.value ≤ a.value`. -/
def entryValGe (a b : LeaderboardEntry) : Prop := b.value ≤ a.value

instance : DecidableRel entryValGe :=
  fun a b => inferInstanceAs (Decidable (b.value ≤ a.value))

instance : IsTotal LeaderboardEntry entryValGe :=
  ⟨fun a b => Nat.le_total b.value a.value⟩

instance : IsTrans LeaderboardEntry entryValGe :=
  ⟨fun _ _ _ hab hbc => Nat.le_trans hbc hab⟩

/-- The stable sort `.sort((a, b) => b.value - a.value)` of `route.ts`
(lines 286, 313 and 326).  `Array.prototype.sort` is stable and the
comparator is a total preorder on `value`, so its output is the unique
stable descending-by-value ordering, realised here by insertion sort. -/
def sortByValueDesc (entries : List LeaderboardEntry) : List LeaderboardEntry :=
  List.insertionSort entryValGe entries

/-- The rank assignment
`.map((entry, index) => ({ ...entry, rank: index + 1 }))` of `route.ts`
(lines 287, 314 and 327). -/
def assignRanks (entries : List LeaderboardEntry) : List LeaderboardEntry :=
  entries.enum.map (fun p => { p.2 with rank := p.1 + 1 })

/-- The leaderboard pipeline shared by the three leaderboards of `route.ts`
(lines 278–328): map each network user to an entry whose `value` is the
selected metric, stable-sort descending by value, then assign 1-based ranks
by position. -/
def buildLeaderboard (users : List NetworkUser) (metric : NetworkUser → Nat) :
    List LeaderboardEntry :=
  assignRanks (sortByValueDesc
    (users.map (fun u => ⟨u.login, metric u, u.avatarUrl, 0⟩)))

/-- The `commits` leaderboard: the metric is the calendar's
`totalContributions`. -/
def commitsLeaderboard (users : List NetworkUser) : List LeaderboardEntry :=
  buildLeaderboard users (fun u => u.totalContributions)

/-- The per-user streak metric of the `streak` leaderboard (lines 289–312):
the streak loop over the user's days restricted to dates on or after
2024-01-01. -/
def streakValue (u : NetworkUser) : Nat :=
  computeLongestStreak (filterFrom2024 u.days)

/-- The `streak` leaderboard of `route.ts`. -/
def streakLeaderboard (users : List NetworkUser) : List LeaderboardEntry :=
  buildLeaderboard users streakValue

/-- The per-user star metric of the `stars` leaderboard (lines 316–325):
`user.repositories.nodes.reduce((acc, repo) => acc + (repo.stargazerCount || 0), 0)`. -/
def starsValue (u : NetworkUser) : Nat :=
  u.repoStars.foldl (fun acc s => acc + s) 0

/-- The `stars` leaderboard of `route.ts`. -/
def starsLeaderboard (users : List NetworkUser) : List LeaderboardEntry :=
  buildLeaderboard users starsValue

/-- A network user carrying only a login and a commit total, for the
concrete leaderboard examples of the specification. -/
def mkCommitUser (login : String) (commits : Nat) : NetworkUser :=
  ⟨login, "", commits, [], []⟩

theorem assignRanks_map_rank (l : List LeaderboardEntry) :
    (assignRanks l).map (fun e => e.rank) = List.range' 1 l.length := by
  unfold assignRanks
  rw [List.map_map]
  have h1 : ((fun e : LeaderboardEntry => e.rank)
        ∘ fun p : Nat × LeaderboardEntry => { p.2 with rank := p.1 + 1 })
      = ((fun i => i + 1) ∘ Prod.fst) := rfl
  rw [h1, ← List.map_map, List.enum_map_fst, List.range'_eq_map_range]
  exact List.map_congr_left (fun i _ => Nat.add_comm i 1)

theorem assignRanks_map_value (l : List LeaderboardEntry) :
    (assignRanks l).map (fun e => e.value) = l.map (fun e => e.value) := by
  unfold assignRanks
  rw [List.map_map]
  have h1 : ((fun e : LeaderboardEntry => e.value)
        ∘ fun p : Nat × LeaderboardEntry => { p.2 with rank := p.1 + 1 })
      = ((fun e : LeaderboardEntry => e.value) ∘ Prod.snd) := rfl
  rw [h1, ← List.map_map, List.enum_map_snd]

theorem assignRanks_map_core (l : List LeaderboardEntry) :
    (assignRanks l).map (fun e => (e.username, e.value, e.avatarUrl))
      = l.map (fun e => (e.username, e.value, e.avatarUrl)) := by
  unfold assignRanks
  rw [List.map_map]
  have h1 : ((fun e : LeaderboardEntry => (e.username, e.value, e.avatarUrl))
        ∘ fun p : Nat × LeaderboardEntry => { p.2 with rank := p.1 + 1 })
      = ((fun e : LeaderboardEntry => (e.username, e.value, e.avatarUrl)) ∘ Prod.snd) := rfl
  rw [h1, ← List.map_map, List.enum_map_snd]

theorem sortByValueDesc_length (l : List LeaderboardEntry) :
    (sortByValueDesc l).length = l.length :=
  List.length_insertionSort entryValGe l

theorem buildLeaderboard_map_rank (users : List NetworkUser)
    (metric : NetworkUser → Nat) :
    (buildLeaderboard users metric).map (fun e => e.rank)
      = List.range' 1 users.length := by
  unfold buildLeaderboard
  rw [assignRanks_map_rank, sortByValueDesc_length, List.length_map]

theorem buildLeaderboard_values_sorted (users : List NetworkUser)
    (metric : NetworkUser → Nat) :
    ((buildLeaderboard users metric).map (fun e => e.value)).Chain'
      (fun a b => b ≤ a) := by
  unfold buildLeaderboard
  rw [assignRanks_map_value]
  have hs : (sortByValueDesc
      (users.map (fun u => ⟨u.login, metric u, u.avatarUrl, 0⟩))).Pairwise entryValGe :=
    List.sorted_insertionSort entryValGe _
  exact (hs.map (fun e : LeaderboardEntry => e.value) (fun a b hab => hab)).chain'

theorem buildLeaderboard_perm (users : List NetworkUser)
    (metric : NetworkUser → Nat) :
    ((buildLeaderboard users metric).map (fun e => (e.username, e.value, e.avatarUrl))).Perm
      (users.map (fun u => (u.login, metric u, u.avatarUrl))) := by
  unfold buildLeaderboard
  rw [assignRanks_map_core]
  have hp : (sortByValueDesc
        (users.map (fun u => ⟨u.login, metric u, u.avatarUrl, 0⟩))).Perm
      (users.map (fun u => ⟨u.login, metric u, u.avatarUrl, 0⟩)) :=
    List.perm_insertionSort entryValGe _
  have := hp.map (fun e : LeaderboardEntry => (e.username, e.value, e.avatarUrl))
  rw [List.map_map] at this
  exact this

/-- Claim C2: `buildLeaderboard` maps each user to (username, value,
avatarUrl), stably sorts descending by value (equal-valued entries retain
their relative input order), and assigns `rank = position + 1`, so the rank
list is exactly `1..N`, values are non-increasing along the list, and the
example with commit totals `[100, 50, 200]` sorts to `[200, 100, 50]` with
ranks `[1, 2, 3]`. -/
theorem buildLeaderboard_spec :
    (∀ (users : List NetworkUser) (metric : NetworkUser → Nat),
        (buildLeaderboard users metric).map (fun e => e.rank)
          = List.range' 1 users.length)
    ∧ (∀ (users : List NetworkUser) (metric : NetworkUser → Nat),
        ((buildLeaderboard users metric).map (fun e => e.value)).Chain'
          (fun a b => b ≤ a))
    ∧ (∀ (users : List NetworkUser) (metric : NetworkUser → Nat),
        ((buildLeaderboard users metric).map
            (fun e => (e.username, e.value, e.avatarUrl))).Perm
          (users.map (fun u => (u.login, metric u, u.avatarUrl))))
    ∧ (∀ (a b : LeaderboardEntry) (l : List LeaderboardEntry),
        a.value = b.value → [a, b].Sublist l → [a, b].Sublist (sortByValueDesc l))
    ∧ commitsLeaderboard [mkCommitUser "u1" 100, mkCommitUser "u2" 50, mkCommitUser "u3" 200]
        = [⟨"u3", 200, "", 1⟩, ⟨"u1", 100, "", 2⟩, ⟨"u2", 50, "", 3⟩] := by
  refine ⟨buildLeaderboard_map_rank, buildLeaderboard_values_sorted,
    buildLeaderboard_perm, fun a b l hv hs => ?_, by decide⟩
  exact List.pair_sublist_insertionSort (le_of_eq hv.symm) hs

/-- Witness for claim C2: the stability conjunct applied to two tied
entries, and the rank conjunct at a singleton list. -/
theorem buildLeaderboard_spec_witness :
    [(⟨"a", 5, "", 0⟩ : LeaderboardEntry), ⟨"b", 5, "", 0⟩].Sublist
      (sortByValueDesc [⟨"a", 5, "", 0⟩, ⟨"b", 5, "", 0⟩]) :=
  buildLeaderboard_spec.2.2.2.1 ⟨"a", 5, "", 0⟩ ⟨"b", 5, "", 0⟩
    [⟨"a", 5, "", 0⟩, ⟨"b", 5, "", 0⟩] rfl (List.Sublist.refl _)

/-- Claim C5: every leaderboard entry list produced for network members
(the `commits`, `streak` and `stars` leaderboards) carries ranks that are
1-based, dense and strictly increasing with position in the sorted order
(ties broken by original order via the stable sort), and is sorted by the
single-metric key `value` descending. -/
theorem leaderboards_rank_invariants :
    (∀ users : List NetworkUser,
        (commitsLeaderboard users).map (fun e => e.rank) = List.range' 1 users.length
        ∧ ((commitsLeaderboard users).map (fun e => e.rank)).Chain' (fun a b => a < b)
        ∧ ((commitsLeaderboard users).map (fun e => e.value)).Chain' (fun a b => b ≤ a))
    ∧ (∀ users : List NetworkUser,
        (streakLeaderboard users).map (fun e => e.rank) = List.range' 1 users.length
        ∧ ((streakLeaderboard users).map (fun e => e.rank)).Chain' (fun a b => a < b)
        ∧ ((streakLeaderboard users).map (fun e => e.value)).Chain' (fun a b => b ≤ a))
    ∧ (∀ users : List NetworkUser,
        (starsLeaderboard users).map (fun e => e.rank) = List.range' 1 users.length
        ∧ ((starsLeaderboard users).map (fun e => e.rank)).Chain' (fun a b => a < b)
        ∧ ((starsLeaderboard users).map (fun e => e.value)).Chain' (fun a b => b ≤ a))
    ∧ (∀ (a b : LeaderboardEntry) (l : List LeaderboardEntry),
        b.value ≤ a.value → [a, b].Sublist l → [a, b].Sublist (sortByValueDesc l)) := by
  have hchain : ∀ users : List NetworkUser, ∀ metric : NetworkUser → Nat,
      ((buildLeaderboard users metric).map (fun e => e.rank)).Chain'
        (fun a b => a < b) := by
    intro users metric
    rw [buildLeaderboard_map_rank]
    exact (List.pairwise_lt_range' ..).chain'
  refine ⟨fun users => ⟨?_, ?_, ?_⟩, fun users => ⟨?_, ?_, ?_⟩,
      fun users => ⟨?_, ?_, ?_⟩, fun a b l hab hs => ?_⟩
  · exact buildLeaderboard_map_rank users _
  · exact hchain users _
  · exact buildLeaderboard_values_sorted users _
  · exact buildLeaderboard_map_rank users _
  · exact hchain users _
  · exact buildLeaderboard_values_sorted users _
  · exact buildLeaderboard_map_rank users _
  · exact hchain users _
  · exact buildLeaderboard_values_sorted users _
  · exact List.pair_sublist_insertionSort hab hs

/-- Witness for claim C5: the stability conjunct applied to two concrete
entries inside a three-entry list. -/
theorem leaderboards_rank_invariants_witness :
    [(⟨"x", 7, "", 0⟩ : LeaderboardEntry), ⟨"y", 7, "", 0⟩].Sublist
      (sortByValueDesc [⟨"x", 7, "", 0⟩, ⟨"z", 9, "", 0⟩, ⟨"y", 7, "", 0⟩]) :=
  leaderboards_rank_invariants.2.2.2 ⟨"x", 7, "", 0⟩ ⟨"y", 7, "", 0⟩
    [⟨"x", 7, "", 0⟩, ⟨"z", 9, "", 0⟩, ⟨"y", 7, "", 0⟩] (Nat.le_refl 7)
    (by decide)

/-- The keys of a JavaScript record built by repeated
`record[key] = (record[key] || 0) + increment`, in insertion order:
each key is appended the first time it is seen. -/
def recordKeys {α : Type} [DecidableEq α] (l : List α) : List α :=
  l.foldl (fun ks k => if k ∈ ks then ks else ks ++ [k]) []

theorem mem_foldl_recordStep {α : Type} [DecidableEq α] (l : List α)
    (ks : List α) (x : α) :
    (x ∈ l.foldl (fun ks k => if k ∈ ks then ks else ks ++ [k]) ks)
      ↔ (x ∈ ks ∨ x ∈ l) := by
  induction l generalizing ks with
  | nil => simp
  | cons k rest ih =>
    rw [List.foldl_cons, ih]
    by_cases hk : k ∈ ks
    · rw [if_pos hk]
      constructor
      · rintro (h | h)
        · exact Or.inl h
        · exact Or.inr (List.mem_cons_of_mem k h)
      · rintro (h | h)
        · exact Or.inl h
        · rcases List.mem_cons.mp h with rfl | h
          · exact Or.inl hk
          · exact Or.inr h
    · rw [if_neg hk]
      constructor
      · rintro (h | h)
        · rcases List.mem_append.mp h with h | h
          · exact Or.inl h
          · exact Or.inr (List.mem_cons.mpr (Or.inl (List.mem_singleton.mp h)))
        · exact Or.inr (List.mem_cons_of_mem k h)
      · rintro (h | h)
        · exact Or.inl (List.mem_append.mpr (Or.inl h))
        · rcases List.mem_cons.mp h with rfl | h
          · exact Or.inl (List.mem_append.mpr (Or.inr (List.mem_singleton.mpr rfl)))
          · exact Or.inr h

theorem mem_recordKeys {α : Type} [DecidableEq α] (l : List α) (x : α) :
    x ∈ recordKeys l ↔ x ∈ l := by
  unfold recordKeys
  rw [mem_foldl_recordStep]
  simp

/-- Total contribution count accumulated in the weekday bucket `w` by
`dailyCommits[day.weekday] = (dailyCommits[day.weekday] || 0) + day.contributionCount`
(`route.ts` lines 228–232). -/
def weekdayTotal (days : List ContributionDay) (w : Nat) : Nat :=
  ((days.filter (fun d => d.weekday = w)).map (fun d => d.contributionCount)).sum

/-- The keys of the `dailyCommits` record.  JavaScript objects enumerate
integer-like string keys in ascending numeric order, so the keys are the
distinct weekday values occurring in `days`, sorted ascending. -/
def weekdayKeys (days : List ContributionDay) : List Nat :=
  List.insertionSort (· ≤ ·) (recordKeys (days.map (fun d => d.weekday)))

/-- The order realised by the bucket comparator `([, a], [, b]) => b - a`:
a (key, total) pair may stay before another exactly when its total is at
least as large. -/
def pairValGe {α : Type} (a b : α × Nat) : Prop := b.2 ≤ a.2

instance {α : Type} : DecidableRel (pairValGe (α := α)) :=
  fun a b => inferInstanceAs (Decidable (b.2 ≤ a.2))

instance {α : Type} : IsTotal (α × Nat) pairValGe :=
  ⟨fun a b => Nat.le_total b.2 a.2⟩

instance {α : Type} : IsTrans (α × Nat) pairValGe :=
  ⟨fun _ _ _ hab hbc => Nat.le_trans hbc hab⟩

/-- `Object.entries(dailyCommits)`: the (weekday, total) pairs in key order. -/
def dailyEntries (days : List ContributionDay) : List (Nat × Nat) :=
  (weekdayKeys days).map (fun w => (w, weekdayTotal days w))

/-- `const [mostActiveDay] = Object.entries(dailyCommits).sort(([, a], [, b]) => b - a)`
(`route.ts` lines 239–241): the first bucket after the stable sort by total
descending, or `none` when there is no bucket at all (empty day list), in
which case the JavaScript destructuring yields `undefined`. -/
def mostActiveDayEntry (days : List ContributionDay) : Option (Nat × Nat) :=
  (List.insertionSort pairValGe (dailyEntries days)).head?

/-- `Math.round` on the non-negative values arising here: round half up. -/
def jsRound (q : ℚ) : ℤ := ⌊q + 1 / 2⌋

/-- The reported `mostActiveDay.commits` value (`route.ts` line 338):
`Math.round(mostActiveDay[1] / (contributionDays.length / 7))`, or `none`
when there is no bucket (in which case the route throws instead). -/
def mostActiveDayCommits (days : List ContributionDay) : Option ℤ :=
  (mostActiveDayEntry days).map
    (fun e => jsRound ((e.2 : ℚ) / ((days.length : ℚ) / 7)))

/-- Total contribution count accumulated in the month bucket `m` by
`monthlyCommits[monthKey] = (monthlyCommits[monthKey] || 0) + day.contributionCount`
(`route.ts` lines 219–225); the key is the zero-padded month of the day's
date. -/
def monthTotal (days : List ContributionDay) (m : Nat) : Nat :=
  ((days.filter (fun d => d.date.month = m)).map (fun d => d.contributionCount)).sum

/-- The keys of the `monthlyCommits` record.  The zero-padded keys
("01".."12") are not integer-like, so JavaScript enumerates them in
insertion order: distinct months in order of first occurrence. -/
def monthKeys (days : List ContributionDay) : List Nat :=
  recordKeys (days.map (fun d => d.date.month))

/-- `Object.entries(monthlyCommits)`: the (month, total) pairs in key order. -/
def monthlyEntries (days : List ContributionDay) : List (Nat × Nat) :=
  (monthKeys days).map (fun m => (m, monthTotal days m))

/-- `const [mostActiveMonth] = Object.entries(monthlyCommits).sort(([, a], [, b]) => b - a)`
(`route.ts` lines 235–237), `none` when there is no bucket. -/
def mostActiveMonthEntry (days : List ContributionDay) : Option (Nat × Nat) :=
  (List.insertionSort pairValGe (monthlyEntries days)).head?

/-- `totalStars` (`route.ts` lines 244–247):
`repositories.nodes.reduce((acc, repo) => acc + repo.stargazerCount, 0)`. -/
def totalStars (repos : List Repo) : Nat :=
  repos.foldl (fun acc repo => acc + repo.stargazerCount) 0

/-- The keys of the `languages` tally (`route.ts` lines 250–259): the
distinct primary-language names in order of first occurrence (repositories
without a primary language are skipped). -/
def languageKeys (repos : List Repo) : List String :=
  recordKeys (repos.filterMap (fun repo => repo.primaryLanguage))

/-- The tally accumulated for one language name by
`acc[name] = (acc[name] || 0) + 1`. -/
def languageCount (repos : List Repo) (name : String) : Nat :=
  (repos.filter (fun repo => repo.primaryLanguage = some name)).length

/-- `topLanguages` (`route.ts` lines 261–264): stable-sort the language
tallies by count descending, take the first three, keep the names. -/
def topLanguages (repos : List Repo) : List String :=
  ((List.insertionSort pairValGe
      ((languageKeys repos).map (fun name => (name, languageCount repos name)))).take 3).map
    (fun p => p.1)

/-- The aggregate part of the `GitHubStats` response assembled by `GET` in
`route.ts` (lines 331–347) from the flattened raw contribution days, the
repository nodes and the calendar's `totalContributions`: the days are first
restricted to dates on or after 2024-01-01, and every day-based aggregate is
computed from the restricted list. -/
structure StatsOutput where
  longestStreak : Nat
  calendarData : List ContributionDay
  activeDay : Option (Nat × Nat)
  activeDayCommits : Option ℤ
  activeMonth : Option (Nat × Nat)
  starsEarned : Nat
  topLangs : List String
  commitRank : String
deriving DecidableEq, Repr

/-- The `GET` aggregation pipeline of `route.ts`. -/
def routeStats (rawDays : List ContributionDay) (repos : List Repo)
    (totalContributions : Nat) : StatsOutput :=
  { longestStreak := computeLongestStreak (filterFrom2024 rawDays)
    calendarData := filterFrom2024 rawDays
    activeDay := mostActiveDayEntry (filterFrom2024 rawDays)
    activeDayCommits := mostActiveDayCommits (filterFrom2024 rawDays)
    activeMonth := mostActiveMonthEntry (filterFrom2024 rawDays)
    starsEarned := totalStars repos
    topLangs := topLanguages repos
    commitRank := getCommitRank totalContributions }

theorem sort_head_mem_and_max {α : Type} (l : List (α × Nat)) (e : α × Nat)
    (he : (List.insertionSort pairValGe l).head? = some e) :
    e ∈ l ∧ ∀ x ∈ l, x.2 ≤ e.2 := by
  have hs : (List.insertionSort pairValGe l).Sorted pairValGe :=
    List.sorted_insertionSort pairValGe l
  cases hl : List.insertionSort pairValGe l with
  | nil => rw [hl] at he; cases he
  | cons hd t =>
    rw [hl] at he hs
    have hde : hd = e := by
      simpa using he
    subst hde
    constructor
    · exact (List.mem_insertionSort pairValGe).mp (hl ▸ List.mem_cons_self hd t)
    · intro x hx
      have hx2 : x ∈ hd :: t := hl ▸ (List.mem_insertionSort pairValGe).mpr hx
      rcases List.mem_cons.mp hx2 with rfl | hxt
      · exact Nat.le_refl _
      · exact List.rel_of_sorted_cons hs x hxt

/-- Claim C8: for every non-empty contribution-day sequence, the reported
most-active-day commit value is the winning weekday bucket's summed
contribution count divided by (total day count / 7), rounded to the nearest
integer (half up, as `Math.round` does). -/
theorem mostActiveDay_normalized (days : List ContributionDay) (h : days ≠ []) :
    ∃ w : Nat, w ∈ weekdayKeys days
      ∧ (∀ w2 ∈ weekdayKeys days, weekdayTotal days w2 ≤ weekdayTotal days w)
      ∧ mostActiveDayCommits days
          = some (jsRound ((weekdayTotal days w : ℚ) / ((days.length : ℚ) / 7))) := by
  obtain ⟨d, hd⟩ : ∃ d, d ∈ days := List.exists_mem_of_ne_nil days h
  have hw : d.weekday ∈ weekdayKeys days := by
    unfold weekdayKeys
    rw [List.mem_insertionSort, mem_recordKeys]
    exact List.mem_map_of_mem _ hd
  have hlen : (List.insertionSort pairValGe (dailyEntries days)).length ≠ 0 := by
    rw [List.length_insertionSort]
    unfold dailyEntries
    rw [List.length_map]
    exact (List.length_pos.mpr (List.ne_nil_of_mem hw)).ne'
  cases hl : List.insertionSort pairValGe (dailyEntries days) with
  | nil => rw [hl] at hlen; exact absurd rfl hlen
  | cons e t =>
    have he : (List.insertionSort pairValGe (dailyEntries days)).head? = some e := by
      rw [hl]; rfl
    obtain ⟨hmem, hmax⟩ := sort_head_mem_and_max (dailyEntries days) e he
    obtain ⟨w, hwk, hwe⟩ := List.mem_map.mp hmem
    refine ⟨w, hwk, fun w2 hw2 => ?_, ?_⟩
    · have hx : (w2, weekdayTotal days w2) ∈ dailyEntries days :=
        List.mem_map_of_mem _ hw2
      have := hmax _ hx
      rw [← hwe] at this
      exact this
    · unfold mostActiveDayCommits mostActiveDayEntry
      rw [he, ← hwe]
      rfl

/-- Witness for claim C8 at a concrete one-day input: the single bucket
totals 3, the day count is 1, and the reported value is
`Math.round(3 / (1 / 7)) = 21`. -/
theorem mostActiveDay_normalized_witness :
    ∃ w : Nat, w ∈ weekdayKeys [(⟨3, ⟨2024, 5, 6⟩, 2⟩ : ContributionDay)]
      ∧ (∀ w2 ∈ weekdayKeys [(⟨3, ⟨2024, 5, 6⟩, 2⟩ : ContributionDay)],
          weekdayTotal [⟨3, ⟨2024, 5, 6⟩, 2⟩] w2 ≤ weekdayTotal [⟨3, ⟨2024, 5, 6⟩, 2⟩] w)
      ∧ mostActiveDayCommits [⟨3, ⟨2024, 5, 6⟩, 2⟩]
          = some (jsRound ((weekdayTotal [⟨3, ⟨2024, 5, 6⟩, 2⟩] w : ℚ)
              / ((List.length [(⟨3, ⟨2024, 5, 6⟩, 2⟩ : ContributionDay)] : ℚ) / 7))) :=
  mostActiveDay_normalized [⟨3, ⟨2024, 5, 6⟩, 2⟩] (by decide)

/-- Claim C3 (the code violates it): on an empty contribution-day list the
most-active-day and most-active-month selections yield no bucket at all —
`Object.entries({})` destructures to `undefined` and the subsequent
`mostActiveDay[0]` / `mostActiveMonth[0]` accesses throw, so the route
returns a 500 error instead of a defined zero-value result — while the
repository aggregates do default to zero values on an empty repository
list. -/
theorem emptyInput_aggregates :
    mostActiveDayEntry [] = none
    ∧ mostActiveMonthEntry [] = none
    ∧ mostActiveDayCommits [] = none
    ∧ (routeStats [] [] 0).activeDay = none
    ∧ (routeStats [] [] 0).activeMonth = none
    ∧ totalStars [] = 0
    ∧ topLanguages [] = []
    ∧ computeLongestStreak [] = 0 :=
  ⟨rfl, rfl, rfl, rfl, rfl, rfl, rfl, rfl⟩

/-- Claim C10: a contribution day appears in the endpoint's `calendarData`
exactly when it comes from the data source and its date is on or after
2024-01-01; earlier days are silently excluded, and the streak and activity
aggregates (including the per-user streak leaderboard metric) are computed
from the filtered day list only. -/
theorem calendarData_cutoff :
    (∀ (rawDays : List ContributionDay) (repos : List Repo) (tc : Nat)
        (d : ContributionDay),
        d ∈ (routeStats rawDays repos tc).calendarData
          ↔ d ∈ rawDays ∧ cutoffDate.le d.date = true)
    ∧ (∀ (rawDays : List ContributionDay) (repos : List Repo) (tc : Nat),
        (routeStats rawDays repos tc).longestStreak
            = computeLongestStreak (filterFrom2024 rawDays)
        ∧ (routeStats rawDays repos tc).activeDay
            = mostActiveDayEntry (filterFrom2024 rawDays)
        ∧ (routeStats rawDays repos tc).activeMonth
            = mostActiveMonthEntry (filterFrom2024 rawDays))
    ∧ (∀ users : List NetworkUser,
        streakLeaderboard users
          = buildLeaderboard users
              (fun u => computeLongestStreak (filterFrom2024 u.days))) := by
  refine ⟨fun rawDays repos tc d => ?_, fun _ _ _ => ⟨rfl, rfl, rfl⟩, fun users => rfl⟩
  show d ∈ filterFrom2024 rawDays ↔ _
  unfold filterFrom2024
  rw [List.mem_filter]

/-- Witness for claim C10 at a concrete two-day input containing one
pre-2024 day: that day is not part of `calendarData`. -/
theorem calendarData_cutoff_witness :
    (⟨1, ⟨2023, 12, 31⟩, 0⟩ : ContributionDay)
        ∈ (routeStats [⟨1, ⟨2023, 12, 31⟩, 0⟩, ⟨2, ⟨2024, 3, 4⟩, 1⟩] [] 0).calendarData
      ↔ ((⟨1, ⟨2023, 12, 31⟩, 0⟩ : ContributionDay)
            ∈ [(⟨1, ⟨2023, 12, 31⟩, 0⟩ : ContributionDay), ⟨2, ⟨2024, 3, 4⟩, 1⟩]
          ∧ cutoffDate.le ⟨2023, 12, 31⟩ = true) :=
  calendarData_cutoff.1 [⟨1, ⟨2023, 12, 31⟩, 0⟩, ⟨2, ⟨2024, 3, 4⟩, 1⟩] [] 0
    ⟨1, ⟨2023, 12, 31⟩, 0⟩

/-- `getConnectionLabel` from the Leaderboard component: maps the numeric
connection type to its display label (switch with default empty string). -/
def getConnectionLabel (connectionType : Nat) : String :=
  if connectionType = 3 then "Mutual"
  else if connectionType = 2 then "Follower"
  else if connectionType = 1 then "Following"
  else ""

/-- Modelled from the spec: `classifyConnection(username, followerSet,
followingSet)` is absent from the source tree — only its consumer
`getConnectionLabel` (and pass-throughs of a `connectionType` field) exist —
so the classification is modelled from the specification's words: 3 if the
username is in both sets, 2 if only in the followers set, 1 if only in the
following set, 0 otherwise.  Finite string sets are embedded as lists. -/
def classifyConnection (username : String)
    (followerSet followingSet : List String) : Nat :=
  if username ∈ followerSet ∧ username ∈ followingSet then 3
  else if username ∈ followerSet then 2
  else if username ∈ followingSet then 1
  else 0

/-- Claim C6: `classifyConnection` returns 3 on membership in both sets,
2 when only in the followers set, 1 when only in the following set, 0
otherwise; and the example with followers {alice, bob} and following
{alice} classifies "alice" as 3 (mutual). -/
theorem classifyConnection_spec :
    (∀ (u : String) (fs fg : List String),
        u ∈ fs → u ∈ fg → classifyConnection u fs fg = 3)
    ∧ (∀ (u : String) (fs fg : List String),
        u ∈ fs → u ∉ fg → classifyConnection u fs fg = 2)
    ∧ (∀ (u : String) (fs fg : List String),
        u ∉ fs → u ∈ fg → classifyConnection u fs fg = 1)
    ∧ (∀ (u : String) (fs fg : List String),
        u ∉ fs → u ∉ fg → classifyConnection u fs fg = 0)
    ∧ classifyConnection "alice" ["alice", "bob"] ["alice"] = 3
    ∧ getConnectionLabel (classifyConnection "alice" ["alice", "bob"] ["alice"])
        = "Mutual" := by
  refine ⟨fun u fs fg h1 h2 => ?_, fun u fs fg h1 h2 => ?_,
    fun u fs fg h1 h2 => ?_, fun u fs fg h1 h2 => ?_, by decide, by decide⟩
  · unfold classifyConnection
    rw [if_pos ⟨h1, h2⟩]
  · unfold classifyConnection
    rw [if_neg (fun hc => h2 hc.2), if_pos h1]
  · unfold classifyConnection
    rw [if_neg (fun hc => h1 hc.1), if_neg h1, if_pos h2]
  · unfold classifyConnection
    rw [if_neg (fun hc => h1 hc.1), if_neg h1, if_neg h2]

/-- Witness for claim C6 at concrete users and sets. -/
theorem classifyConnection_spec_witness :
    classifyConnection "alice" ["alice", "bob"] ["alice"] = 3
    ∧ classifyConnection "bob" ["alice", "bob"] ["alice"] = 2
    ∧ classifyConnection "carol" ["alice", "bob"] ["carol"] = 1
    ∧ classifyConnection "dave" ["alice", "bob"] ["carol"] = 0 :=
  ⟨classifyConnection_spec.1 "alice" ["alice", "bob"] ["alice"]
      (by decide) (by decide),
   classifyConnection_spec.2.1 "bob" ["alice", "bob"] ["alice"]
      (by decide) (by decide),
   classifyConnection_spec.2.2.1 "carol" ["alice", "bob"] ["carol"]
      (by decide) (by decide),
   classifyConnection_spec.2.2.2.1 "dave" ["alice", "bob"] ["carol"]
      (by decide) (by decide)⟩

/-- The `UserStatsSnapshot` record of the specification's data model, as
consumed by the network-averages operation. -/
structure UserStatsSnapshot where
  totalCommits : Nat
  longestStreak : Nat
  starsEarned : Nat
deriving DecidableEq, Repr

/-- The `NetworkAggregate` record of the specification's data model. -/
structure NetworkAggregate where
  averageCommits : ℚ
  averageStreak : ℚ
  averageStars : ℚ
deriving DecidableEq, Repr

/-- Modelled from the spec: `computeNetworkAverages(users)` is absent from
the source tree — the leaderboards page (lines 85–93) only defaults the
averages received from the API with `data.averageCommits || 0` and no code
computes them — so the operation is modelled from the specification's
words: the arithmetic mean of `totalCommits`, `longestStreak` and
`starsEarned` over the supplied user slice, with the empty slice explicitly
mapped to the defined result 0 (rationals have no NaN). -/
def computeNetworkAverages (users : List UserStatsSnapshot) : NetworkAggregate :=
  if users.length = 0 then ⟨0, 0, 0⟩
  else
    ⟨(users.map (fun u => (u.totalCommits : ℚ))).sum / users.length,
     (users.map (fun u => (u.longestStreak : ℚ))).sum / users.length,
     (users.map (fun u => (u.starsEarned : ℚ))).sum / users.length⟩

/-- The defaulting `data.averageCommits || 0` applied by the leaderboards
page to each average missing from the API response. -/
def orZero (x : Option ℚ) : ℚ :=
  match x with
  | none => 0
  | some v => v

/-- Claim C7: `computeNetworkAverages` returns the arithmetic mean of
`totalCommits`, `longestStreak` and `starsEarned` over the supplied user
slice (characterised by `mean * length = sum`), and on the empty slice it
returns the defined all-zero aggregate — never NaN (not representable in
`ℚ`) and never an exception; the page-side defaulting likewise turns a
missing average into 0. -/
theorem computeNetworkAverages_spec :
    computeNetworkAverages [] = ⟨0, 0, 0⟩
    ∧ (∀ users : List UserStatsSnapshot, users ≠ [] →
        (computeNetworkAverages users).averageCommits * users.length
            = (users.map (fun u => (u.totalCommits : ℚ))).sum
        ∧ (computeNetworkAverages users).averageStreak * users.length
            = (users.map (fun u => (u.longestStreak : ℚ))).sum
        ∧ (computeNetworkAverages users).averageStars * users.length
            = (users.map (fun u => (u.starsEarned : ℚ))).sum)
    ∧ orZero none = 0 := by
  refine ⟨rfl, fun users hne => ?_, rfl⟩
  have hlen : users.length ≠ 0 := fun hc => hne (List.length_eq_zero.mp hc)
  have hq : (users.length : ℚ) ≠ 0 := Nat.cast_ne_zero.mpr hlen
  unfold computeNetworkAverages
  rw [if_neg hlen]
  exact ⟨div_mul_cancel₀ _ hq, div_mul_cancel₀ _ hq, div_mul_cancel₀ _ hq⟩

/-- Witness for claim C7 at a concrete one-user slice. -/
theorem computeNetworkAverages_spec_witness :
    (computeNetworkAverages [⟨4, 2, 6⟩]).averageCommits
          * (List.length [(⟨4, 2, 6⟩ : UserStatsSnapshot)])
        = ((List.map (fun u : UserStatsSnapshot => (u.totalCommits : ℚ))
            [⟨4, 2, 6⟩]).sum)
    ∧ (computeNetworkAverages [⟨4, 2, 6⟩]).averageStreak
          * (List.length [(⟨4, 2, 6⟩ : UserStatsSnapshot)])
        = ((List.map (fun u : UserStatsSnapshot => (u.longestStreak : ℚ))
            [⟨4, 2, 6⟩]).sum)
    ∧ (computeNetworkAverages [⟨4, 2, 6⟩]).averageStars
          * (List.length [(⟨4, 2, 6⟩ : UserStatsSnapshot)])
        = ((List.map (fun u : UserStatsSnapshot => (u.starsEarned : ℚ))
            [⟨4, 2, 6⟩]).sum) :=
  computeNetworkAverages_spec.2.1 [⟨4, 2, 6⟩] (by decide)

end GitWrapped
